import Mathlib

/-!
Webhook handlers of package watogo

A shallow embedding of the two HTTP handlers documented in `doc.go`
(`handshakeHandler` and `messageHandler`) together with the parts of the
Go runtime they touch: `url.Values.Get`, `os.Getenv`, `http.ResponseWriter`
and the nil-safe getters of the generated protobuf message types.

Conventions of the embedding

* a Go pointer `*T` is `Ptr T` (`none` is the nil pointer);
* a Go slice `[]T` is `Slice T` (`none` is the nil slice, `some []` an
  allocated slice of length zero), so that `x != nil` keeps its Go meaning;
* a handler is a pure function from its inputs to an `Outcome`: the final
  state of the response writer, the lines sent to the logger and the routing
  branches that were entered, each in program order;
* `messageHandler` takes its decoder as an argument; the statements about the
  response and the routing hold for every decoder, and the statements about
  unknown fields are made for `protojsonUnmarshal`, which follows the documented
  behaviour of the library function the handler calls.
-/

set_option maxRecDepth 8000

namespace Watogo

/-! ## Go runtime pieces -/

/-- Go pointer: `none` is nil. -/
abbrev Ptr (α : Type) := Option α

/-- Go slice: `none` is the nil slice, `some xs` a non-nil slice holding `xs`. -/
abbrev Slice (α : Type) := Option (List α)

/-- Builtin `len` on slices; the nil slice has length zero. -/
def Slice.len {α : Type} (s : Slice α) : Nat :=
  match s with
  | none => 0
  | some xs => xs.length

/-- Elements a `for _, x := range s` loop visits, in order; none for the nil slice. -/
def Slice.elems {α : Type} (s : Slice α) : List α :=
  match s with
  | none => []
  | some xs => xs

deriving instance DecidableEq for Except

/-- Body bytes of a request. -/
abbrev Bytes := List UInt8

/-- Parsed query string of the request URL: the `key=value` pairs in the order
they appear. `r.URL.Query()` groups them by key into a `url.Values`. -/
abbrev Query := List (String × String)

/-- Lookup `v[key]` in the `url.Values` that `r.URL.Query()` returns:
the values given for `key`, in order (the nil slice when the key is absent). -/
def Query.values (q : Query) (key : String) : List String :=
  q.filterMap (fun p => if p.1 = key then some p.2 else none)

/-- Method `url.Values.Get`: the first value associated with the key, and the
empty string when there is none. -/
def Query.Get (q : Query) (key : String) : String :=
  match q.values key with
  | [] => ""
  | v :: _ => v

/-- Whether the query carries the parameter `key` at all. -/
def Query.has (q : Query) (key : String) : Bool :=
  q.any (fun p => p.1 = key)

/-- Process environment: variable name to value, `none` when unset. -/
abbrev Environ := String → Option String

/-- Function `os.Getenv`: the value of the variable, empty when it is unset. -/
def Getenv (env : Environ) (key : String) : String :=
  match env key with
  | some v => v
  | none => ""

def StatusOK : Nat := 200
def StatusForbidden : Nat := 403
def StatusNotFound : Nat := 404
def StatusInternalServerError : Nat := 500

/-- State of an `http.ResponseWriter`: the status code once the header has
been written, and the payload of every `Write` call in order. -/
structure ResponseWriter where
  status : Option Nat := none
  writes : List String := []
deriving DecidableEq

/-- Method `WriteHeader`: sends the header with the given status code; a second
call has no effect on the response. -/
def ResponseWriter.WriteHeader (w : ResponseWriter) (code : Nat) : ResponseWriter :=
  match w.status with
  | none => { w with status := some code }
  | some _ => w

/-- Method `Write`: writes the header with status 200 first when no header has
been written yet, then appends the data to the body. -/
def ResponseWriter.Write (w : ResponseWriter) (data : String) : ResponseWriter :=
  let w1 := w.WriteHeader StatusOK
  { w1 with writes := w1.writes ++ [data] }

/-- Response body: everything written, concatenated. -/
def ResponseWriter.body (w : ResponseWriter) : String :=
  String.join w.writes

/-- Function `http.Error`: replies with the status code and the message
followed by a newline. -/
def httpError (w : ResponseWriter) (msg : String) (code : Nat) : ResponseWriter :=
  (w.WriteHeader code).Write (msg ++ "\n")

/-! ## Message types -/

/-- Modelled from the spec: the generated struct `VerificationRequest_Hub` is
not part of `doc.go`; the struct literal in `handshakeHandler` fixes its three
fields `Mode`, `VerifyToken` and `Challenge` as plain Go strings. -/
structure VerificationRequest_Hub where
  Mode : String := ""
  VerifyToken : String := ""
  Challenge : String := ""
deriving DecidableEq

/-- Modelled from the spec: the generated struct `VerificationRequest` is not
part of `doc.go`; the struct literal in `handshakeHandler` fixes its field
`Hub` as a pointer to `VerificationRequest_Hub`. -/
structure VerificationRequest where
  Hub : Ptr VerificationRequest_Hub := none
deriving DecidableEq

/-- Getter `GetHub`, nil-safe. -/
def VerificationRequest.GetHub (x : Ptr VerificationRequest) : Ptr VerificationRequest_Hub :=
  match x with
  | some r => r.Hub
  | none => none

/-- Getter `GetMode`, nil-safe. -/
def VerificationRequest_Hub.GetMode (x : Ptr VerificationRequest_Hub) : String :=
  match x with
  | some h => h.Mode
  | none => ""

/-- Getter `GetVerifyToken`, nil-safe. -/
def VerificationRequest_Hub.GetVerifyToken (x : Ptr VerificationRequest_Hub) : String :=
  match x with
  | some h => h.VerifyToken
  | none => ""

/-- Getter `GetChallenge`, nil-safe. -/
def VerificationRequest_Hub.GetChallenge (x : Ptr VerificationRequest_Hub) : String :=
  match x with
  | some h => h.Challenge
  | none => ""

/-- Modelled from the spec: sub-object of a text `Message` (field `body`); the
generated struct is not part of `doc.go`. -/
structure Text where
  Body : String := ""
deriving DecidableEq

/-- Modelled from the spec: entity MediaReference of the data model (`id`,
`mimeType`, `sha256` and the optional `caption`); the generated struct is not
part of `doc.go`. -/
structure MediaReference where
  Id : String := ""
  MimeType : String := ""
  Sha256 : String := ""
  Caption : Ptr String := none
deriving DecidableEq

/-- Modelled from the spec: sub-object of a location `Message`; the spec names
the variant and none of its fields; the generated struct is not part of
`doc.go`. -/
structure Location where
deriving DecidableEq

/-- Modelled from the spec: entity Message of the data model (`id`, `from`,
`timestamp`, `type` and one sub-object per variant the spec names: text, image,
audio, document, location); the generated struct is not part of `doc.go`. -/
structure Message where
  Id : String := ""
  From : String := ""
  Timestamp : String := ""
  Type_ : String := ""
  Text : Ptr Text := none
  Image : Ptr MediaReference := none
  Audio : Ptr MediaReference := none
  Document : Ptr MediaReference := none
  Location : Ptr Location := none
deriving DecidableEq

/-- Modelled from the spec: entity StatusUpdate of the data model (`id`,
`status`, `timestamp`, `recipientId`); the generated struct is not part of
`doc.go`. -/
structure StatusUpdate where
  Id : String := ""
  Status : String := ""
  Timestamp : String := ""
  RecipientId : String := ""
deriving DecidableEq

/-- Modelled from the spec: phone number info carried by a Value; the generated
struct is not part of `doc.go`. -/
structure Metadata where
  DisplayPhoneNumber : String := ""
  PhoneNumberId : String := ""
deriving DecidableEq

/-- Modelled from the spec: entity Value of the data model (`messagingProduct`,
`metadata`, and the two independently optional variants `messages` and
`statuses`, repeated message fields, hence slices of pointers); the generated
struct is not part of `doc.go`. -/
structure Value where
  MessagingProduct : String := ""
  Metadata : Ptr Metadata := none
  Messages : Slice (Ptr Message) := none
  Statuses : Slice (Ptr StatusUpdate) := none
deriving DecidableEq

/-- Modelled from the spec: entity Change of the data model (`field`, `value`);
the generated struct is not part of `doc.go`. -/
structure Change where
  Field : String := ""
  Value : Ptr Value := none
deriving DecidableEq

/-- Modelled from the spec: entity Entry of the data model (`id`, ordered
`changes`); the generated struct is not part of `doc.go`. -/
structure Entry where
  Id : String := ""
  Changes : Slice (Ptr Change) := none
deriving DecidableEq

/-- Modelled from the spec: entity WebhookPayload of the data model (`object`,
ordered `entry`); the generated struct is not part of `doc.go`. -/
structure WebhookPayload where
  Object : String := ""
  Entry : Slice (Ptr Entry) := none
deriving DecidableEq

/-- Getter `GetObject` as called on the decoded payload. -/
def WebhookPayload.GetObject (p : WebhookPayload) : String := p.Object

/-- Getter `GetEntry` as called on the decoded payload. -/
def WebhookPayload.GetEntry (p : WebhookPayload) : Slice (Ptr Watogo.Entry) := p.Entry

/-- Getter `GetChanges`, nil-safe. -/
def Entry.GetChanges (x : Ptr Entry) : Slice (Ptr Change) :=
  match x with
  | some e => e.Changes
  | none => none

/-- Getter `GetValue`, nil-safe. -/
def Change.GetValue (x : Ptr Change) : Ptr Watogo.Value :=
  match x with
  | some c => c.Value
  | none => none

/-- Getter `GetMessages`, nil-safe. -/
def Value.GetMessages (x : Ptr Value) : Slice (Ptr Message) :=
  match x with
  | some v => v.Messages
  | none => none

/-- Getter `GetStatuses`, nil-safe. -/
def Value.GetStatuses (x : Ptr Value) : Slice (Ptr StatusUpdate) :=
  match x with
  | some v => v.Statuses
  | none => none

/-! ## Handler outcomes -/

/-- One call of `log.Printf` in the handlers, identified by its call site and
the values it formats. -/
inductive LogLine where
  | verification (payload : VerificationRequest)
  | readError (err : String)
  | parseError (err : String) (body : Bytes)
deriving DecidableEq

/-- One entry into a branch of the business-logic routing of `messageHandler`,
with the slice the branch condition inspected. -/
inductive Routed where
  | messages (ms : Slice (Ptr Message))
  | statuses (ss : Slice (Ptr StatusUpdate))
deriving DecidableEq

/-- Everything a handler run leaves behind: the response writer, the log lines
and the routing branches entered, each in program order. -/
structure Outcome where
  w : ResponseWriter := {}
  log : List LogLine := []
  routed : List Routed := []
deriving DecidableEq

/-! ## handshakeHandler -/

/-- The `VerificationRequest` literal built at the top of `handshakeHandler`
from the three query parameters. -/
def verificationRequestOf (q : Query) : VerificationRequest :=
  { Hub := some
      { Mode := q.Get "hub.mode"
        VerifyToken := q.Get "hub.verify_token"
        Challenge := q.Get "hub.challenge" } }

/-- Handler `handshakeHandler`, run on a fresh response writer with the parsed
query of the request and the process environment. -/
def handshakeHandler (env : Environ) (q : Query) : Outcome :=
  let payload : Ptr VerificationRequest := some (verificationRequestOf q)
  let o : Outcome := { log := [LogLine.verification (verificationRequestOf q)] }
  let verifyToken := Getenv env "WHATSAPP_VERIFY_TOKEN"
  if VerificationRequest_Hub.GetMode (VerificationRequest.GetHub payload) = "subscribe"
      ∧ VerificationRequest_Hub.GetVerifyToken (VerificationRequest.GetHub payload) = verifyToken then
    let w1 := o.w.WriteHeader StatusOK
    let w2 := w1.Write (VerificationRequest_Hub.GetChallenge (VerificationRequest.GetHub payload))
    { o with w := w2 }
  else
    { o with w := o.w.WriteHeader StatusForbidden }

/-! ## messageHandler -/

/-- Body of the inner loop of `messageHandler`: the if / else-if routing on the
value of one change. -/
def routeValue (value : Ptr Value) (acc : List Routed) : List Routed :=
  if Value.GetMessages value ≠ none then
    acc ++ [Routed.messages (Value.GetMessages value)]
  else if Value.GetStatuses value ≠ none then
    acc ++ [Routed.statuses (Value.GetStatuses value)]
  else
    acc

/-- Inner loop of `messageHandler`: `for _, change := range entry.GetChanges()`. -/
def routeChanges (entry : Ptr Entry) (acc : List Routed) : List Routed :=
  (Entry.GetChanges entry).elems.foldl
    (fun acc change => routeValue (Change.GetValue change) acc) acc

/-- Outer loop of `messageHandler`: `for _, entry := range payload.GetEntry()`. -/
def routeEntries (payload : WebhookPayload) (acc : List Routed) : List Routed :=
  payload.GetEntry.elems.foldl (fun acc entry => routeChanges entry acc) acc

/-- Handler `messageHandler`, run on a fresh response writer. Its inputs are
the result of `io.ReadAll(r.Body)` and the decoder `protojson.Unmarshal` into a
fresh `WebhookPayload`, which belongs to a library outside this package and is
therefore a parameter. -/
def messageHandler (unmarshal : Bytes → Except String WebhookPayload)
    (read : Except String Bytes) : Outcome :=
  match read with
  | Except.error err =>
    { log := [LogLine.readError err]
      w := httpError {} "Error reading request body" StatusInternalServerError }
  | Except.ok body =>
    match unmarshal body with
    | Except.error err =>
      { log := [LogLine.parseError err body]
        w := (({} : ResponseWriter).WriteHeader StatusOK).Write "EVENT_RECEIVED" }
    | Except.ok payload =>
      if payload.GetObject = "whatsapp_business_account" then
        { routed := routeEntries payload []
          w := (({} : ResponseWriter).WriteHeader StatusOK).Write "EVENT_RECEIVED" }
      else
        { w := ({} : ResponseWriter).WriteHeader StatusNotFound }

/-! ## The decoder called by messageHandler

`messageHandler` decodes with the package-level function `protojson.Unmarshal`
of `google.golang.org/protobuf`, that is, with the zero `UnmarshalOptions`. The
function is library code; the definitions of this section follow its documented
behaviour on a parsed JSON value: members are processed in order, a member
name is resolved by JSON name or by proto name, an unresolved name is an error
unless `DiscardUnknown` is set, a repeated name is an error, a `null` value
leaves the field unset, and every nested message is decoded with the same
options. The decoder is generic in the message descriptor. An error is
recorded by its cause; the text the library renders for it, which carries the
position in the body, is a parameter, and so is the splitting of the body text
into a JSON value.
-/

/-- A parsed JSON value; numbers keep their text. -/
inductive JSON where
  | null
  | bool (b : Bool)
  | number (text : String)
  | string (s : String)
  | array (items : List JSON)
  | object (members : List (String × JSON))

/-- Cause of a decoding error. -/
inductive DecodeError where
  | malformed
  | unexpectedToken
  | invalidValue
  | unknownField (name : String)
  | duplicateField (name : String)
deriving DecidableEq

/-- Library type `protojson.UnmarshalOptions`, reduced to the option that
governs unknown fields; the zero value has it unset. -/
structure UnmarshalOptions where
  DiscardUnknown : Bool := false
deriving DecidableEq

/-- Descriptor of a message type `M`, as far as decoding needs it: the list of
its fields, each with its JSON name, its proto name, its number (which only
serves to detect a repeated field) and its kind: a string, a message with its
own descriptor, or a repeated message with its own descriptor. The last
argument of a field says how a decoded value is stored into `M`. -/
inductive Codec : Type → Type 1 where
  | nil {M : Type} : Codec M
  | string {M : Type} (jsonName textName : String) (num : Nat) (set : String → M → M)
      (rest : Codec M) : Codec M
  | message {M : Type} (jsonName textName : String) (num : Nat) {C : Type} (child : Codec C)
      (empty : C) (set : C → M → M) (rest : Codec M) : Codec M
  | repeated {M : Type} (jsonName textName : String) (num : Nat) {C : Type} (child : Codec C)
      (empty : C) (append : List C → M → M) (rest : Codec M) : Codec M

/-- One field of a descriptor, as found by name. -/
inductive FieldOf (M : Type) : Type 1 where
  | string (num : Nat) (set : String → M → M)
  | message (num : Nat) {C : Type} (child : Codec C) (empty : C) (set : C → M → M)
  | repeated (num : Nat) {C : Type} (child : Codec C) (empty : C) (append : List C → M → M)

/-- Field lookup: the first field whose JSON name or proto name is the given
member name. -/
def Codec.find {M : Type} : Codec M → String → Option (FieldOf M)
  | Codec.nil, _ => none
  | Codec.string j t num set rest, name =>
    if name = j ∨ name = t then some (FieldOf.string num set) else rest.find name
  | Codec.message j t num child empty set rest, name =>
    if name = j ∨ name = t then some (FieldOf.message num child empty set) else rest.find name
  | Codec.repeated j t num child empty app rest, name =>
    if name = j ∨ name = t then some (FieldOf.repeated num child empty app) else rest.find name

/-- Number of a field. -/
def FieldOf.number {M : Type} : FieldOf M → Nat
  | FieldOf.string num _ => num
  | FieldOf.message num _ _ _ => num
  | FieldOf.repeated num _ _ _ => num

/-- One turn of the member loop of the library's message decoder, on the member
`name`, `val`: the error that ends the decoding, or the fields seen and the
message as they stand after the member. The last two arguments decode `val` as
a nested message and as the elements of a repeated message, for a given
descriptor and a fresh message of that type. -/
def memberStep {M : Type} (opts : UnmarshalOptions) (codec : Codec M) (name : String)
    (val : JSON) (seen : List Nat) (m : M)
    (asMessage : (C : Type) → Codec C → C → Except DecodeError C)
    (asItems : (C : Type) → Codec C → C → Except DecodeError (List C)) :
    Except DecodeError (List Nat × M) :=
  match codec.find name with
  | none =>
    if opts.DiscardUnknown then Except.ok (seen, m)
    else Except.error (DecodeError.unknownField name)
  | some fd =>
    if fd.number ∈ seen then Except.error (DecodeError.duplicateField name)
    else
      match val with
      | JSON.null => Except.ok (fd.number :: seen, m)
      | _ =>
        match fd with
        | FieldOf.string _ set =>
          match val with
          | JSON.string s => Except.ok (fd.number :: seen, set s m)
          | _ => Except.error DecodeError.invalidValue
        | FieldOf.message _ child empty set =>
          match asMessage _ child empty with
          | Except.error err => Except.error err
          | Except.ok c => Except.ok (fd.number :: seen, set c m)
        | FieldOf.repeated _ child empty app =>
          match asItems _ child empty with
          | Except.error err => Except.error err
          | Except.ok cs => Except.ok (fd.number :: seen, app cs m)

mutual
/-- Decoding of one message from a JSON value: the value has to be an object. -/
def unmarshalMessage (opts : UnmarshalOptions) :
    JSON → {M : Type} → Codec M → M → Except DecodeError M
  | JSON.object members, _, codec, empty => unmarshalMembers opts members codec [] empty
  | _, _, _, _ => Except.error DecodeError.unexpectedToken
/-- The member loop of the library's message decoder. -/
def unmarshalMembers (opts : UnmarshalOptions) :
    List (String × JSON) → {M : Type} → Codec M → List Nat → M → Except DecodeError M
  | [], _, _, _, m => Except.ok m
  | (name, val) :: rest, _, codec, seen, m =>
    match memberStep opts codec name val seen m
        (fun _ child empty => unmarshalMessage opts val child empty)
        (fun _ child empty =>
          match val with
          | JSON.array items => unmarshalItems opts items child empty
          | _ => Except.error DecodeError.unexpectedToken) with
    | Except.error err => Except.error err
    | Except.ok next => unmarshalMembers opts rest codec next.1 next.2
/-- Decoding of the elements of a repeated message field, in order. -/
def unmarshalItems (opts : UnmarshalOptions) :
    List JSON → {C : Type} → Codec C → C → Except DecodeError (List C)
  | [], _, _, _ => Except.ok []
  | item :: rest, _, child, empty =>
    match unmarshalMessage opts item child empty with
    | Except.error err => Except.error err
    | Except.ok c =>
      match unmarshalItems opts rest child empty with
      | Except.error err => Except.error err
      | Except.ok cs => Except.ok (c :: cs)
end

/-- Decoding of a repeated message field from a JSON value: the value has to
be an array. -/
def unmarshalArray (opts : UnmarshalOptions) (val : JSON) {C : Type} (child : Codec C)
    (empty : C) : Except DecodeError (List C) :=
  match val with
  | JSON.array items => unmarshalItems opts items child empty
  | _ => Except.error DecodeError.unexpectedToken

/-- The JSON value `j2` is the JSON value `j` of a message with descriptor
`codec`, with one more member named `name` in the object of the message itself
or of a message nested in it, at any position, where `name` denotes no field of
the message that object stands for. -/
inductive Extended (name : String) : {M : Type} → Codec M → JSON → JSON → Prop where
  | here {M : Type} (codec : Codec M) (ms1 ms2 : List (String × JSON)) (val : JSON) :
      codec.find name = none →
      Extended name codec (JSON.object (ms1 ++ ms2)) (JSON.object (ms1 ++ (name, val) :: ms2))
  | inMessage {M C : Type} (codec : Codec M) (fname : String) (num : Nat) (child : Codec C)
      (empty : C) (set : C → M → M) (ms1 ms2 : List (String × JSON)) (v v2 : JSON) :
      codec.find fname = some (FieldOf.message num child empty set) →
      Extended name child v v2 →
      Extended name codec (JSON.object (ms1 ++ (fname, v) :: ms2))
        (JSON.object (ms1 ++ (fname, v2) :: ms2))
  | inRepeated {M C : Type} (codec : Codec M) (fname : String) (num : Nat) (child : Codec C)
      (empty : C) (app : List C → M → M) (ms1 ms2 : List (String × JSON))
      (xs1 xs2 : List JSON) (x x2 : JSON) :
      codec.find fname = some (FieldOf.repeated num child empty app) →
      Extended name child x x2 →
      Extended name codec (JSON.object (ms1 ++ (fname, JSON.array (xs1 ++ x :: xs2)) :: ms2))
        (JSON.object (ms1 ++ (fname, JSON.array (xs1 ++ x2 :: xs2)) :: ms2))

/-- Appending decoded elements to a repeated field; nothing is allocated when
there is nothing to append. -/
def Slice.appendDecoded {α : Type} (s : Slice (Ptr α)) (xs : List α) : Slice (Ptr α) :=
  match xs with
  | [] => s
  | _ => some (Slice.elems s ++ xs.map some)

/-- Modelled from the spec: fields of `Text`; the generated descriptor is not
part of `doc.go`. -/
def textCodec : Codec Text :=
  Codec.string "body" "body" 1 (fun s m => { m with Body := s }) Codec.nil

/-- Modelled from the spec: fields of `MediaReference`; the generated
descriptor is not part of `doc.go`. -/
def mediaReferenceCodec : Codec MediaReference :=
  Codec.string "id" "id" 1 (fun s m => { m with Id := s })
  (Codec.string "mimeType" "mime_type" 2 (fun s m => { m with MimeType := s })
  (Codec.string "sha256" "sha256" 3 (fun s m => { m with Sha256 := s })
  (Codec.string "caption" "caption" 4 (fun s m => { m with Caption := some s }) Codec.nil)))

/-- Modelled from the spec: `Location`, of which the spec names no field; the
generated descriptor is not part of `doc.go`. -/
def locationCodec : Codec Location := Codec.nil

/-- Modelled from the spec: fields of `Message`; the generated descriptor is
not part of `doc.go`. -/
def messageCodec : Codec Message :=
  Codec.string "id" "id" 1 (fun s m => { m with Id := s })
  (Codec.string "from" "from" 2 (fun s m => { m with From := s })
  (Codec.string "timestamp" "timestamp" 3 (fun s m => { m with Timestamp := s })
  (Codec.string "type" "type" 4 (fun s m => { m with Type_ := s })
  (Codec.message "text" "text" 5 textCodec {} (fun c m => { m with Text := some c })
  (Codec.message "image" "image" 6 mediaReferenceCodec {} (fun c m => { m with Image := some c })
  (Codec.message "audio" "audio" 7 mediaReferenceCodec {} (fun c m => { m with Audio := some c })
  (Codec.message "document" "document" 8 mediaReferenceCodec {}
    (fun c m => { m with Document := some c })
  (Codec.message "location" "location" 9 locationCodec {}
    (fun c m => { m with Location := some c }) Codec.nil))))))))

/-- Modelled from the spec: fields of `StatusUpdate`; the generated descriptor
is not part of `doc.go`. -/
def statusUpdateCodec : Codec StatusUpdate :=
  Codec.string "id" "id" 1 (fun s m => { m with Id := s })
  (Codec.string "status" "status" 2 (fun s m => { m with Status := s })
  (Codec.string "timestamp" "timestamp" 3 (fun s m => { m with Timestamp := s })
  (Codec.string "recipientId" "recipient_id" 4 (fun s m => { m with RecipientId := s })
    Codec.nil)))

/-- Modelled from the spec: fields of `Metadata`; the generated descriptor is
not part of `doc.go`. -/
def metadataCodec : Codec Metadata :=
  Codec.string "displayPhoneNumber" "display_phone_number" 1
    (fun s m => { m with DisplayPhoneNumber := s })
  (Codec.string "phoneNumberId" "phone_number_id" 2 (fun s m => { m with PhoneNumberId := s })
    Codec.nil)

/-- Modelled from the spec: fields of `Value`; the generated descriptor is not
part of `doc.go`. -/
def valueCodec : Codec Value :=
  Codec.string "messagingProduct" "messaging_product" 1
    (fun s m => { m with MessagingProduct := s })
  (Codec.message "metadata" "metadata" 2 metadataCodec {}
    (fun c m => { m with Metadata := some c })
  (Codec.repeated "messages" "messages" 3 messageCodec {}
    (fun cs m => { m with Messages := Slice.appendDecoded m.Messages cs })
  (Codec.repeated "statuses" "statuses" 4 statusUpdateCodec {}
    (fun cs m => { m with Statuses := Slice.appendDecoded m.Statuses cs }) Codec.nil)))

/-- Modelled from the spec: fields of `Change`; the generated descriptor is not
part of `doc.go`. -/
def changeCodec : Codec Change :=
  Codec.string "field" "field" 1 (fun s m => { m with Field := s })
  (Codec.message "value" "value" 2 valueCodec {} (fun c m => { m with Value := some c })
    Codec.nil)

/-- Modelled from the spec: fields of `Entry`; the generated descriptor is not
part of `doc.go`. -/
def entryCodec : Codec Entry :=
  Codec.string "id" "id" 1 (fun s m => { m with Id := s })
  (Codec.repeated "changes" "changes" 2 changeCodec {}
    (fun cs m => { m with Changes := Slice.appendDecoded m.Changes cs }) Codec.nil)

/-- Modelled from the spec: fields of `WebhookPayload`; the generated
descriptor is not part of `doc.go`. -/
def webhookPayloadCodec : Codec WebhookPayload :=
  Codec.string "object" "object" 1 (fun s m => { m with Object := s })
  (Codec.repeated "entry" "entry" 2 entryCodec {}
    (fun cs m => { m with Entry := Slice.appendDecoded m.Entry cs }) Codec.nil)

/-- Method `UnmarshalOptions.Unmarshal` into a fresh `WebhookPayload` with
descriptor `codec`, on the body text as split into a JSON value by `parse`
(`none` for text that is not JSON). -/
def unmarshalWith (opts : UnmarshalOptions) (codec : Codec WebhookPayload)
    (parse : Bytes → Option JSON) (body : Bytes) : Except DecodeError WebhookPayload :=
  match parse body with
  | none => Except.error DecodeError.malformed
  | some j => unmarshalMessage opts j codec {}

/-- Function `protojson.Unmarshal` as called by `messageHandler`: the zero
options; the error value handed to the caller is the text `describe` renders
for the body and the cause. -/
def protojsonUnmarshal (codec : Codec WebhookPayload) (describe : Bytes → DecodeError → String)
    (parse : Bytes → Option JSON) (body : Bytes) : Except String WebhookPayload :=
  match unmarshalWith {} codec parse body with
  | Except.error err => Except.error (describe body err)
  | Except.ok payload => Except.ok payload

/-! ## Vocabulary of the statements -/

/-- A repeated field as decoding leaves it: the nil slice unless at least one
element was appended to it. An allocated slice of length zero only arises in
values built by hand. -/
def Slice.Decoded {α : Type} (s : Slice α) : Prop := s ≠ some []

/-- The changes of a payload in delivery order: entry after entry and, inside
an entry, change after change. -/
def WebhookPayload.changes (p : WebhookPayload) : List (Ptr Change) :=
  p.GetEntry.elems.flatMap (fun e => (Entry.GetChanges e).elems)

/-- The routing branches one change enters when the inner loop body runs on it
with nothing recorded before. -/
def routeChange (c : Ptr Change) : List Routed :=
  routeValue (Change.GetValue c) []

/-- Whether one of the two branch conditions of the routing holds for a change. -/
def Change.actionable (c : Ptr Change) : Bool :=
  decide (Value.GetMessages (Change.GetValue c) ≠ none)
    || decide (Value.GetStatuses (Change.GetValue c) ≠ none)

/-- The acknowledgement `messageHandler` writes: status 200 and the one body
write `EVENT_RECEIVED`. -/
def eventReceived : ResponseWriter :=
  { status := some StatusOK, writes := ["EVENT_RECEIVED"] }

/-! ## Sample inputs used to instantiate the theorems -/

/-- Environment in which the verify token is set to `T1`. -/
def envT1 : Environ := fun k => if k = "WHATSAPP_VERIFY_TOKEN" then some "T1" else none

/-- Environment in which the verify token is not set. -/
def envUnset : Environ := fun _ => none

/-- A text message. -/
def textMessage : Message :=
  { Id := "wamid.1", From := "15550001111", Timestamp := "1700000000", Type_ := "text"
    Text := some { Body := "hello" } }

/-- A delivery receipt. -/
def deliveredStatus : StatusUpdate :=
  { Id := "wamid.1", Status := "delivered", Timestamp := "1700000001"
    RecipientId := "15550001111" }

/-- Value carrying one text message and no statuses. -/
def textValue : Value :=
  { MessagingProduct := "whatsapp", Messages := some [some textMessage] }

/-- Value carrying one status and no messages. -/
def statusValue : Value :=
  { MessagingProduct := "whatsapp", Statuses := some [some deliveredStatus] }

/-- Value carrying both a message and a status. -/
def bothValue : Value :=
  { MessagingProduct := "whatsapp", Messages := some [some textMessage]
    Statuses := some [some deliveredStatus] }

/-- Payload of a business account with one entry, one change and one text message. -/
def textPayload : WebhookPayload :=
  { Object := "whatsapp_business_account"
    Entry := some [some { Id := "1", Changes := some [some { Field := "messages", Value := some textValue }] }] }

/-- Payload with the same entry but another object discriminator. -/
def otherKindPayload : WebhookPayload :=
  { Object := "some_other_kind"
    Entry := some [some { Id := "1", Changes := some [some { Field := "messages", Value := some textValue }] }] }

/-- Payload with the other discriminator and no entry. -/
def otherKindEmptyPayload : WebhookPayload :=
  { Object := "some_other_kind" }

/-- Payload of a business account whose single value carries both variants. -/
def bothPayload : WebhookPayload :=
  { Object := "whatsapp_business_account"
    Entry := some [some { Id := "1", Changes := some [some { Field := "messages", Value := some bothValue }] }] }

/-- First entry of `mixedPayload`: a change without value, a change with a text
message, a change whose value carries no variant. -/
def mixedEntry1 : Entry :=
  { Id := "1"
    Changes := some [some { Field := "account_update" }, some { Field := "messages", Value := some textValue }, some { Field := "messages", Value := some { MessagingProduct := "whatsapp" } }] }

/-- Second entry of `mixedPayload`: a change with a status. -/
def mixedEntry2 : Entry :=
  { Id := "2", Changes := some [some { Field := "messages", Value := some statusValue }] }

/-- Payload of a business account with two entries whose changes mix values
that are missing, carry no variant, carry messages and carry statuses. -/
def mixedPayload : WebhookPayload :=
  { Object := "whatsapp_business_account", Entry := some [some mixedEntry1, some mixedEntry2] }

/-- Bytes of an ASCII text. -/
def bytesOf (text : String) : Bytes :=
  text.toList.map (fun c => UInt8.ofNat c.toNat)

/-- JSON text of `textPayload`. -/
def textBody : Bytes :=
  bytesOf
    "\x7b\"object\":\"whatsapp_business_account\",\"entry\":[\x7b\"id\":\"1\",\"changes\":[\x7b\"field\":\"messages\",\"value\":\x7b\"messaging_product\":\"whatsapp\",\"messages\":[\x7b\"id\":\"wamid.1\",\"from\":\"15550001111\",\"timestamp\":\"1700000000\",\"type\":\"text\",\"text\":\x7b\"body\":\"hello\"\x7d\x7d]\x7d\x7d]\x7d]\x7d"

/-- JSON text of `otherKindPayload`. -/
def otherKindBody : Bytes :=
  bytesOf
    "\x7b\"object\":\"some_other_kind\",\"entry\":[\x7b\"id\":\"1\",\"changes\":[\x7b\"field\":\"messages\",\"value\":\x7b\"messaging_product\":\"whatsapp\",\"messages\":[\x7b\"id\":\"wamid.1\",\"from\":\"15550001111\",\"timestamp\":\"1700000000\",\"type\":\"text\",\"text\":\x7b\"body\":\"hello\"\x7d\x7d]\x7d\x7d]\x7d]\x7d"

/-- JSON text of `otherKindEmptyPayload`. -/
def otherKindEmptyBody : Bytes :=
  bytesOf
    "\x7b\"object\":\"some_other_kind\"\x7d"

/-- JSON text of `bothPayload`. -/
def bothBody : Bytes :=
  bytesOf
    "\x7b\"object\":\"whatsapp_business_account\",\"entry\":[\x7b\"id\":\"1\",\"changes\":[\x7b\"field\":\"messages\",\"value\":\x7b\"messaging_product\":\"whatsapp\",\"messages\":[\x7b\"id\":\"wamid.1\",\"from\":\"15550001111\",\"timestamp\":\"1700000000\",\"type\":\"text\",\"text\":\x7b\"body\":\"hello\"\x7d\x7d],\"statuses\":[\x7b\"id\":\"wamid.1\",\"status\":\"delivered\",\"timestamp\":\"1700000001\",\"recipient_id\":\"15550001111\"\x7d]\x7d\x7d]\x7d]\x7d"

/-- JSON text of `mixedPayload`. -/
def mixedBody : Bytes :=
  bytesOf
    "\x7b\"object\":\"whatsapp_business_account\",\"entry\":[\x7b\"id\":\"1\",\"changes\":[\x7b\"field\":\"account_update\"\x7d,\x7b\"field\":\"messages\",\"value\":\x7b\"messaging_product\":\"whatsapp\",\"messages\":[\x7b\"id\":\"wamid.1\",\"from\":\"15550001111\",\"timestamp\":\"1700000000\",\"type\":\"text\",\"text\":\x7b\"body\":\"hello\"\x7d\x7d]\x7d\x7d,\x7b\"field\":\"messages\",\"value\":\x7b\"messaging_product\":\"whatsapp\"\x7d\x7d]\x7d,\x7b\"id\":\"2\",\"changes\":[\x7b\"field\":\"messages\",\"value\":\x7b\"messaging_product\":\"whatsapp\",\"statuses\":[\x7b\"id\":\"wamid.1\",\"status\":\"delivered\",\"timestamp\":\"1700000001\",\"recipient_id\":\"15550001111\"\x7d]\x7d\x7d]\x7d]\x7d"

/-- Truncated JSON text: the first forty bytes of `textBody`. -/
def truncatedBody : Bytes :=
  bytesOf
    "\x7b\"object\":\"whatsapp_business_account\",\"e"

/-- Decoder used to instantiate the theorems about `messageHandler`: a finite
table from the sample request bodies to the payloads they denote, with an
error for any other body. -/
def sampleUnmarshal (body : Bytes) : Except String WebhookPayload :=
  if body = textBody then Except.ok textPayload
  else if body = otherKindBody then Except.ok otherKindPayload
  else if body = otherKindEmptyBody then Except.ok otherKindEmptyPayload
  else if body = bothBody then Except.ok bothPayload
  else if body = mixedBody then Except.ok mixedPayload
  else Except.error "proto: syntax error"

/-- Members of the JSON object written in `textBody`. -/
def textMembers : List (String × JSON) :=
  [("object", JSON.string "whatsapp_business_account"), ("entry", JSON.array [JSON.object [("id",
  JSON.string "1"), ("changes", JSON.array [JSON.object [("field", JSON.string "messages"),
  ("value", JSON.object [("messaging_product", JSON.string "whatsapp"), ("messages",
  JSON.array [JSON.object [("id", JSON.string "wamid.1"), ("from", JSON.string "15550001111"),
  ("timestamp", JSON.string "1700000000"), ("type", JSON.string "text"), ("text",
  JSON.object [("body", JSON.string "hello")])]])])]])]])]

/-- The JSON object written in `textBody`, with one more top-level member that
names no field of `WebhookPayload`. -/
def extendedJSON : JSON :=
  JSON.object (textMembers ++ [("x_future_field", JSON.bool true)])

/-- JSON text of `extendedJSON`. -/
def extendedBody : Bytes :=
  bytesOf
    "\x7b\"object\":\"whatsapp_business_account\",\"entry\":[\x7b\"id\":\"1\",\"changes\":[\x7b\"field\":\"messages\",\"value\":\x7b\"messaging_product\":\"whatsapp\",\"messages\":[\x7b\"id\":\"wamid.1\",\"from\":\"15550001111\",\"timestamp\":\"1700000000\",\"type\":\"text\",\"text\":\x7b\"body\":\"hello\"\x7d\x7d]\x7d\x7d]\x7d],\"x_future_field\":true\x7d"

/-- The JSON object written in `textBody`, with one more member inside its
message that names no field of `Message`. -/
def nestedExtendedJSON : JSON :=
  JSON.object [("object", JSON.string "whatsapp_business_account"), ("entry",
  JSON.array [JSON.object [("id", JSON.string "1"), ("changes", JSON.array [JSON.object [("field",
  JSON.string "messages"), ("value", JSON.object [("messaging_product", JSON.string "whatsapp"),
  ("messages", JSON.array [JSON.object [("id", JSON.string "wamid.1"), ("from",
  JSON.string "15550001111"), ("timestamp", JSON.string "1700000000"), ("type",
  JSON.string "text"), ("text", JSON.object [("body", JSON.string "hello")]), ("x_future_field",
  JSON.bool true)]])])]])]])]

/-- JSON text of `nestedExtendedJSON`. -/
def nestedExtendedBody : Bytes :=
  bytesOf
    "\x7b\"object\":\"whatsapp_business_account\",\"entry\":[\x7b\"id\":\"1\",\"changes\":[\x7b\"field\":\"messages\",\"value\":\x7b\"messaging_product\":\"whatsapp\",\"messages\":[\x7b\"id\":\"wamid.1\",\"from\":\"15550001111\",\"timestamp\":\"1700000000\",\"type\":\"text\",\"text\":\x7b\"body\":\"hello\"\x7d,\"x_future_field\":true\x7d]\x7d\x7d]\x7d]\x7d"

/-- The JSON object written in `mixedBody`. -/
def mixedJSON : JSON :=
  JSON.object [("object", JSON.string "whatsapp_business_account"), ("entry",
  JSON.array [JSON.object [("id", JSON.string "1"), ("changes", JSON.array [JSON.object [("field",
  JSON.string "account_update")], JSON.object [("field", JSON.string "messages"), ("value",
  JSON.object [("messaging_product", JSON.string "whatsapp"), ("messages",
  JSON.array [JSON.object [("id", JSON.string "wamid.1"), ("from", JSON.string "15550001111"),
  ("timestamp", JSON.string "1700000000"), ("type", JSON.string "text"), ("text",
  JSON.object [("body", JSON.string "hello")])]])])], JSON.object [("field",
  JSON.string "messages"), ("value", JSON.object [("messaging_product",
  JSON.string "whatsapp")])]])], JSON.object [("id", JSON.string "2"), ("changes",
  JSON.array [JSON.object [("field", JSON.string "messages"), ("value",
  JSON.object [("messaging_product", JSON.string "whatsapp"), ("statuses",
  JSON.array [JSON.object [("id", JSON.string "wamid.1"), ("status", JSON.string "delivered"),
  ("timestamp", JSON.string "1700000001"), ("recipient_id", JSON.string "15550001111")]])])]])]])]

/-- Splitting of the sample request bodies into JSON values; any other body is
reported as not being JSON. -/
def sampleParse (body : Bytes) : Option JSON :=
  if body = textBody then some (JSON.object textMembers)
  else if body = extendedBody then some extendedJSON
  else if body = nestedExtendedBody then some nestedExtendedJSON
  else if body = mixedBody then some mixedJSON
  else if body = otherKindEmptyBody then some (JSON.object [("object", JSON.string "some_other_kind")])
  else none

/-- A rendering of decoding errors used to instantiate the theorems: the cause
without the position the library's text also carries. -/
def sampleDescribe (_ : Bytes) (err : DecodeError) : String :=
  match err with
  | DecodeError.malformed => "proto: malformed input"
  | DecodeError.unexpectedToken => "proto: unexpected token"
  | DecodeError.invalidValue => "proto: invalid value"
  | DecodeError.unknownField name => "proto: unknown field " ++ name
  | DecodeError.duplicateField name => "proto: duplicate field " ++ name

/-! ## Facts about the query accessors -/

theorem Query.values_nil_of_not_has (q : Query) (key : String) (h : q.has key = false) :
    q.values key = [] := by
  induction q with
  | nil => rfl
  | cons p q ih =>
    simp only [Query.has, List.any_cons, Bool.or_eq_false_iff, decide_eq_false_iff_not] at h
    have ih1 := ih (by simpa [Query.has] using h.2)
    simp only [Query.values] at ih1
    simp [Query.values, h.1, ih1]

theorem Query.Get_of_not_has (q : Query) (key : String) (h : q.has key = false) :
    q.Get key = "" := by
  simp [Query.Get, Query.values_nil_of_not_has q key h]

theorem Query.has_of_Get_ne (q : Query) (key : String) (h : q.Get key ≠ "") :
    q.has key = true := by
  by_contra hc
  exact h (Query.Get_of_not_has q key (by simpa using hc))

theorem Query.values_append (q1 q2 : Query) (key : String) :
    Query.values (q1 ++ q2) key = Query.values q1 key ++ Query.values q2 key := by
  simp [Query.values, List.filterMap_append]

theorem Query.values_insert_other (q1 q2 : Query) (k v key : String) (h : k ≠ key) :
    Query.values (q1 ++ (k, v) :: q2) key = Query.values (q1 ++ q2) key := by
  rw [Query.values_append, Query.values_append]
  congr 1
  simp [Query.values, h]

theorem Query.Get_insert_other (q1 q2 : Query) (k v key : String) (h : k ≠ key) :
    Query.Get (q1 ++ (k, v) :: q2) key = Query.Get (q1 ++ q2) key := by
  simp [Query.Get, Query.values_insert_other q1 q2 k v key h]

theorem Query.Get_insert_empty (q1 q2 : Query) (key : String)
    (h : Query.has (q1 ++ q2) key = false) :
    Query.Get (q1 ++ (key, "") :: q2) key = "" := by
  have h0 := Query.values_nil_of_not_has (q1 ++ q2) key h
  rw [Query.values_append] at h0
  have h1 : Query.values q1 key = [] := (List.append_eq_nil.mp h0).1
  have h2 : Query.values q2 key = [] := (List.append_eq_nil.mp h0).2
  have h3 : Query.values ((key, "") :: q2) key = "" :: Query.values q2 key := by
    simp [Query.values]
  simp [Query.Get, Query.values_append, h1, h2, h3]

/-! ## handshakeHandler -/

/-- Response of `handshakeHandler` in closed form. -/
theorem handshakeHandler_w (env : Environ) (q : Query) :
    (handshakeHandler env q).w =
      if q.Get "hub.mode" = "subscribe"
          ∧ q.Get "hub.verify_token" = Getenv env "WHATSAPP_VERIFY_TOKEN" then
        { status := some 200, writes := [q.Get "hub.challenge"] }
      else
        { status := some 403, writes := [] } := by
  unfold handshakeHandler
  simp only [VerificationRequest.GetHub, verificationRequestOf,
    VerificationRequest_Hub.GetMode, VerificationRequest_Hub.GetVerifyToken,
    VerificationRequest_Hub.GetChallenge]
  split <;> rfl

/-- C1: `handshakeHandler` answers 200 with the challenge as its body exactly
when `hub.mode` is `subscribe` and `hub.verify_token` equals the secret held in
the environment, and answers 403 without writing a body otherwise; with mode
`subscribe`, challenge `C1` and secret `T1` it answers 200 with body `C1` for the
token `T1` and 403 for the token `WRONG`. -/
theorem handshakeHandler_contract (env : Environ) (q : Query) :
    ((handshakeHandler env q).w =
      if q.Get "hub.mode" = "subscribe"
          ∧ q.Get "hub.verify_token" = Getenv env "WHATSAPP_VERIFY_TOKEN" then
        { status := some StatusOK, writes := [q.Get "hub.challenge"] }
      else
        { status := some StatusForbidden, writes := [] })
    ∧ (((handshakeHandler env q).w.status = some StatusOK
          ∧ (handshakeHandler env q).w.body = q.Get "hub.challenge")
        ↔ (q.Get "hub.mode" = "subscribe"
          ∧ q.Get "hub.verify_token" = Getenv env "WHATSAPP_VERIFY_TOKEN"))
    ∧ (((handshakeHandler env q).w.status = some StatusForbidden
          ∧ (handshakeHandler env q).w.writes = [])
        ↔ ¬ (q.Get "hub.mode" = "subscribe"
          ∧ q.Get "hub.verify_token" = Getenv env "WHATSAPP_VERIFY_TOKEN"))
    ∧ (handshakeHandler envT1
          [("hub.mode", "subscribe"), ("hub.verify_token", "T1"), ("hub.challenge", "C1")]).w
        = { status := some 200, writes := ["C1"] }
    ∧ (handshakeHandler envT1
          [("hub.mode", "subscribe"), ("hub.verify_token", "T1"), ("hub.challenge", "C1")]).w.body
        = "C1"
    ∧ (handshakeHandler envT1
          [("hub.mode", "subscribe"), ("hub.verify_token", "WRONG"), ("hub.challenge", "C1")]).w
        = { status := some 403, writes := [] } := by
  refine ⟨handshakeHandler_w env q, ?_, ?_, by decide, by decide, by decide⟩
  · rw [handshakeHandler_w]
    split
    · simp [StatusOK, ResponseWriter.body, String.join, *]
    · simp [StatusOK, *]
  · rw [handshakeHandler_w]
    split
    · simp [StatusForbidden, *]
    · simp [StatusForbidden, *]

/-- C2, as stated, fails: with the secret `T1`, the query
`hub.mode=subscribe&hub.verify_token=T1` carries no `hub.challenge` and is
answered with 200. -/
theorem handshakeHandler_ok_without_challenge :
    ¬ ((handshakeHandler envT1
          [("hub.mode", "subscribe"), ("hub.verify_token", "T1")]).w.status = some StatusOK →
        (Query.has [("hub.mode", "subscribe"), ("hub.verify_token", "T1")] "hub.mode" = true
          ∧ Query.has [("hub.mode", "subscribe"), ("hub.verify_token", "T1")] "hub.verify_token" = true
          ∧ Query.has [("hub.mode", "subscribe"), ("hub.verify_token", "T1")] "hub.challenge" = true
          ∧ Query.Get [("hub.mode", "subscribe"), ("hub.verify_token", "T1")] "hub.mode"
              = "subscribe")) := by
  decide

/-- C2, amended: when `handshakeHandler` answers 200, `hub.mode` is present and
equals `subscribe`, the value read for `hub.verify_token` (empty when the
parameter is absent) equals the secret, so that parameter is present whenever
the secret is not empty, and the body is the value read for `hub.challenge`
(empty when that parameter is absent). -/
theorem handshakeHandler_ok_requires (env : Environ) (q : Query)
    (h : (handshakeHandler env q).w.status = some StatusOK) :
    q.has "hub.mode" = true
    ∧ q.Get "hub.mode" = "subscribe"
    ∧ q.Get "hub.verify_token" = Getenv env "WHATSAPP_VERIFY_TOKEN"
    ∧ (Getenv env "WHATSAPP_VERIFY_TOKEN" ≠ "" → q.has "hub.verify_token" = true)
    ∧ (handshakeHandler env q).w.body = q.Get "hub.challenge" := by
  rw [handshakeHandler_w] at h ⊢
  split at h
  · rename_i hc
    refine ⟨?_, hc.1, hc.2, ?_, ?_⟩
    · exact Query.has_of_Get_ne q "hub.mode" (by rw [hc.1]; decide)
    · intro hne
      exact Query.has_of_Get_ne q "hub.verify_token" (by rw [hc.2]; exact hne)
    · simp [hc, ResponseWriter.body, String.join]
  · simp [StatusOK] at h

theorem handshakeHandler_ok_requires_witness :
    (handshakeHandler envT1
        [("hub.mode", "subscribe"), ("hub.verify_token", "T1")]).w.status = some StatusOK
    ∧ (Query.has [("hub.mode", "subscribe"), ("hub.verify_token", "T1")] "hub.mode" = true
      ∧ Query.Get [("hub.mode", "subscribe"), ("hub.verify_token", "T1")] "hub.mode" = "subscribe"
      ∧ Query.Get [("hub.mode", "subscribe"), ("hub.verify_token", "T1")] "hub.verify_token"
          = Getenv envT1 "WHATSAPP_VERIFY_TOKEN"
      ∧ (Getenv envT1 "WHATSAPP_VERIFY_TOKEN" ≠ "" →
          Query.has [("hub.mode", "subscribe"), ("hub.verify_token", "T1")] "hub.verify_token"
            = true)
      ∧ (handshakeHandler envT1
          [("hub.mode", "subscribe"), ("hub.verify_token", "T1")]).w.body
          = Query.Get [("hub.mode", "subscribe"), ("hub.verify_token", "T1")] "hub.challenge") :=
  ⟨by decide, handshakeHandler_ok_requires envT1
    [("hub.mode", "subscribe"), ("hub.verify_token", "T1")] (by decide)⟩

/-- With the verify token unset in the environment, a query that only carries
`hub.mode=subscribe` is answered with 200 and an empty body. -/
theorem handshakeHandler_unset_secret :
    (handshakeHandler envUnset [("hub.mode", "subscribe")]).w
      = { status := some 200, writes := [""] } := by
  decide

/-- C3, as stated, fails: the query `hub.mode=subscribe&hub.challenge=C1`, in
which `hub.verify_token` is absent, and the query
`hub.mode=subscribe&hub.verify_token=&hub.challenge=C1`, in which it is present
and empty, produce the same `VerificationRequest`. -/
theorem verificationRequestOf_absent_eq_empty :
    Query.has [("hub.mode", "subscribe"), ("hub.challenge", "C1")] "hub.verify_token" = false
    ∧ Query.values [("hub.mode", "subscribe"), ("hub.verify_token", ""), ("hub.challenge", "C1")]
        "hub.verify_token" = [""]
    ∧ ¬ (verificationRequestOf [("hub.mode", "subscribe"), ("hub.challenge", "C1")]
        ≠ verificationRequestOf
            [("hub.mode", "subscribe"), ("hub.verify_token", ""), ("hub.challenge", "C1")]) := by
  decide

/-- C3, amended: an absent verify token is not distinguishable from an empty
one. Adding `hub.verify_token` with the empty string as its value, at any
position, to a query that does not carry the parameter leaves the
`VerificationRequest` built by `handshakeHandler` unchanged (its `VerifyToken`
is the empty string in both), and with it the whole outcome of the handler. -/
theorem verificationRequestOf_insert_empty_token (env : Environ) (q1 q2 : Query)
    (h : Query.has (q1 ++ q2) "hub.verify_token" = false) :
    verificationRequestOf (q1 ++ ("hub.verify_token", "") :: q2) = verificationRequestOf (q1 ++ q2)
    ∧ VerificationRequest_Hub.GetVerifyToken
        (VerificationRequest.GetHub (some (verificationRequestOf (q1 ++ q2)))) = ""
    ∧ handshakeHandler env (q1 ++ ("hub.verify_token", "") :: q2)
        = handshakeHandler env (q1 ++ q2) := by
  have hreq : verificationRequestOf (q1 ++ ("hub.verify_token", "") :: q2)
      = verificationRequestOf (q1 ++ q2) := by
    simp only [verificationRequestOf]
    rw [Query.Get_insert_other q1 q2 "hub.verify_token" "" "hub.mode" (by decide),
      Query.Get_insert_other q1 q2 "hub.verify_token" "" "hub.challenge" (by decide),
      Query.Get_insert_empty q1 q2 "hub.verify_token" h,
      Query.Get_of_not_has (q1 ++ q2) "hub.verify_token" h]
  refine ⟨hreq, ?_, ?_⟩
  · simp [verificationRequestOf, VerificationRequest.GetHub,
      VerificationRequest_Hub.GetVerifyToken, Query.Get_of_not_has (q1 ++ q2) "hub.verify_token" h]
  · simp only [handshakeHandler, hreq]

theorem verificationRequestOf_insert_empty_token_witness :
    Query.has ([("hub.mode", "subscribe")] ++ [("hub.challenge", "C1")]) "hub.verify_token" = false
    ∧ (verificationRequestOf
          ([("hub.mode", "subscribe")] ++ ("hub.verify_token", "") :: [("hub.challenge", "C1")])
        = verificationRequestOf ([("hub.mode", "subscribe")] ++ [("hub.challenge", "C1")])
      ∧ VerificationRequest_Hub.GetVerifyToken
          (VerificationRequest.GetHub (some (verificationRequestOf
            ([("hub.mode", "subscribe")] ++ [("hub.challenge", "C1")])))) = ""
      ∧ handshakeHandler envT1
          ([("hub.mode", "subscribe")] ++ ("hub.verify_token", "") :: [("hub.challenge", "C1")])
        = handshakeHandler envT1 ([("hub.mode", "subscribe")] ++ [("hub.challenge", "C1")])) :=
  ⟨by decide, verificationRequestOf_insert_empty_token envT1
    [("hub.mode", "subscribe")] [("hub.challenge", "C1")] (by decide)⟩

/-! ## messageHandler: the routing loops -/

theorem routeValue_acc (value : Ptr Value) (acc : List Routed) :
    routeValue value acc = acc ++ routeValue value [] := by
  unfold routeValue
  split
  · simp
  · split <;> simp

theorem foldl_routeValue (cs : List (Ptr Change)) (acc : List Routed) :
    cs.foldl (fun acc change => routeValue (Change.GetValue change) acc) acc
      = acc ++ cs.flatMap routeChange := by
  induction cs generalizing acc with
  | nil => simp
  | cons c cs ih =>
    rw [List.foldl_cons, ih, routeValue_acc, List.flatMap_cons, List.append_assoc]
    rfl

theorem routeChanges_eq (entry : Ptr Entry) (acc : List Routed) :
    routeChanges entry acc = acc ++ (Entry.GetChanges entry).elems.flatMap routeChange := by
  unfold routeChanges
  exact foldl_routeValue _ acc

theorem foldl_routeChanges (es : List (Ptr Entry)) (acc : List Routed) :
    es.foldl (fun acc entry => routeChanges entry acc) acc
      = acc ++ (es.flatMap (fun e => (Entry.GetChanges e).elems)).flatMap routeChange := by
  induction es generalizing acc with
  | nil => simp
  | cons e es ih =>
    rw [List.foldl_cons, ih, routeChanges_eq, List.flatMap_cons, List.flatMap_append,
      List.append_assoc]

theorem routeEntries_eq (payload : WebhookPayload) (acc : List Routed) :
    routeEntries payload acc = acc ++ payload.changes.flatMap routeChange := by
  unfold routeEntries WebhookPayload.changes
  exact foldl_routeChanges _ acc

theorem routeChange_of_not_actionable (c : Ptr Change) (h : Change.actionable c = false) :
    routeChange c = [] := by
  simp only [Change.actionable, Bool.or_eq_false_iff, decide_eq_false_iff_not, ne_eq,
    not_not] at h
  simp [routeChange, routeValue, h.1, h.2]

theorem flatMap_routeChange_filter (cs : List (Ptr Change)) :
    cs.flatMap routeChange = (cs.filter Change.actionable).flatMap routeChange := by
  induction cs with
  | nil => rfl
  | cons c cs ih =>
    cases hc : Change.actionable c
    · rw [List.flatMap_cons, List.filter_cons_of_neg (by simp [hc]),
        routeChange_of_not_actionable c hc, ih]
      rfl
    · rw [List.flatMap_cons, List.filter_cons_of_pos (by simp [hc]), List.flatMap_cons, ih]

theorem Slice.ne_none_of_len_pos {α : Type} (s : Slice α) (h : 0 < s.len) : s ≠ none := by
  intro hs
  simp [hs, Slice.len] at h

theorem Slice.eq_none_of_len_zero {α : Type} (s : Slice α) (hd : s.Decoded) (h : s.len = 0) :
    s = none := by
  cases s with
  | none => rfl
  | some xs =>
    simp only [Slice.len, List.length_eq_zero] at h
    exact absurd (by rw [h]) hd

/-! ## messageHandler: closed forms of the three decode outcomes -/

theorem messageHandler_of_decode_error (unmarshal : Bytes → Except String WebhookPayload)
    (body : Bytes) (err : String) (h : unmarshal body = Except.error err) :
    messageHandler unmarshal (Except.ok body)
      = { w := eventReceived, log := [LogLine.parseError err body], routed := [] } := by
  simp only [messageHandler, h]
  rfl

theorem messageHandler_of_other_object (unmarshal : Bytes → Except String WebhookPayload)
    (body : Bytes) (payload : WebhookPayload) (h : unmarshal body = Except.ok payload)
    (hobj : payload.Object ≠ "whatsapp_business_account") :
    messageHandler unmarshal (Except.ok body)
      = { w := { status := some StatusNotFound, writes := [] }, log := [], routed := [] } := by
  simp only [messageHandler, h, WebhookPayload.GetObject, hobj, if_false]
  rfl

theorem messageHandler_of_business_account (unmarshal : Bytes → Except String WebhookPayload)
    (body : Bytes) (payload : WebhookPayload) (h : unmarshal body = Except.ok payload)
    (hobj : payload.Object = "whatsapp_business_account") :
    messageHandler unmarshal (Except.ok body)
      = { w := eventReceived, log := [], routed := payload.changes.flatMap routeChange } := by
  simp only [messageHandler, h, WebhookPayload.GetObject, hobj, if_true, routeEntries_eq,
    List.nil_append]
  rfl

/-! ## messageHandler: the response -/

/-- C4: a body that decodes into a payload whose object is not
`whatsapp_business_account` is answered with 404 and no body, nothing is routed
and nothing is logged; the entries are not looked at, so a second such body
with the same object, whatever its entries, has the same outcome. -/
theorem messageHandler_other_object (unmarshal : Bytes → Except String WebhookPayload)
    (body body2 : Bytes) (payload payload2 : WebhookPayload)
    (h : unmarshal body = Except.ok payload)
    (hobj : payload.Object ≠ "whatsapp_business_account")
    (h2 : unmarshal body2 = Except.ok payload2)
    (hsame : payload2.Object = payload.Object) :
    (messageHandler unmarshal (Except.ok body)).w.status = some StatusNotFound
    ∧ (messageHandler unmarshal (Except.ok body)).w.writes = []
    ∧ (messageHandler unmarshal (Except.ok body)).w.body = ""
    ∧ (messageHandler unmarshal (Except.ok body)).routed = []
    ∧ messageHandler unmarshal (Except.ok body2) = messageHandler unmarshal (Except.ok body) := by
  have e1 := messageHandler_of_other_object unmarshal body payload h hobj
  have e2 := messageHandler_of_other_object unmarshal body2 payload2 h2 (by rw [hsame]; exact hobj)
  rw [e1, e2]
  simp [ResponseWriter.body, String.join]

theorem messageHandler_other_object_witness :
    (sampleUnmarshal otherKindBody = Except.ok otherKindPayload
      ∧ otherKindPayload.Object ≠ "whatsapp_business_account"
      ∧ sampleUnmarshal otherKindEmptyBody = Except.ok otherKindEmptyPayload
      ∧ otherKindEmptyPayload.Object = otherKindPayload.Object
      ∧ otherKindEmptyPayload.Entry ≠ otherKindPayload.Entry)
    ∧ ((messageHandler sampleUnmarshal (Except.ok otherKindBody)).w.status = some StatusNotFound
      ∧ (messageHandler sampleUnmarshal (Except.ok otherKindBody)).w.writes = []
      ∧ (messageHandler sampleUnmarshal (Except.ok otherKindBody)).w.body = ""
      ∧ (messageHandler sampleUnmarshal (Except.ok otherKindBody)).routed = []
      ∧ messageHandler sampleUnmarshal (Except.ok otherKindEmptyBody)
          = messageHandler sampleUnmarshal (Except.ok otherKindBody)) :=
  ⟨by decide, messageHandler_other_object sampleUnmarshal otherKindBody otherKindEmptyBody
    otherKindPayload otherKindEmptyPayload (by decide) (by decide) (by decide) (by decide)⟩

/-- C5, as stated, fails: the body with the single member `object` set to
`some_other_kind` is accepted by the decoder and answered with 404 and no
body. -/
theorem messageHandler_accepted_not_acknowledged :
    sampleUnmarshal otherKindEmptyBody = Except.ok otherKindEmptyPayload
    ∧ ¬ ((messageHandler sampleUnmarshal (Except.ok otherKindEmptyBody)).w.status = some StatusOK
        ∧ (messageHandler sampleUnmarshal (Except.ok otherKindEmptyBody)).w.body
            = "EVENT_RECEIVED")
    ∧ (messageHandler sampleUnmarshal (Except.ok otherKindEmptyBody)).w
        = { status := some 404, writes := [] } := by
  decide

/-- C5, amended: a body that decodes into a payload whose object is
`whatsapp_business_account` is answered with 200 and the body `EVENT_RECEIVED`,
whatever the routing over its entries and changes found. -/
theorem messageHandler_business_account_acknowledged
    (unmarshal : Bytes → Except String WebhookPayload) (body : Bytes) (payload : WebhookPayload)
    (h : unmarshal body = Except.ok payload)
    (hobj : payload.Object = "whatsapp_business_account") :
    (messageHandler unmarshal (Except.ok body)).w.status = some StatusOK
    ∧ (messageHandler unmarshal (Except.ok body)).w.writes = ["EVENT_RECEIVED"]
    ∧ (messageHandler unmarshal (Except.ok body)).w.body = "EVENT_RECEIVED" := by
  rw [messageHandler_of_business_account unmarshal body payload h hobj]
  simp [eventReceived, ResponseWriter.body, String.join]

theorem messageHandler_business_account_acknowledged_witness :
    (sampleUnmarshal textBody = Except.ok textPayload
      ∧ textPayload.Object = "whatsapp_business_account")
    ∧ ((messageHandler sampleUnmarshal (Except.ok textBody)).w.status = some StatusOK
      ∧ (messageHandler sampleUnmarshal (Except.ok textBody)).w.writes = ["EVENT_RECEIVED"]
      ∧ (messageHandler sampleUnmarshal (Except.ok textBody)).w.body = "EVENT_RECEIVED") :=
  ⟨by decide, messageHandler_business_account_acknowledged sampleUnmarshal textBody textPayload
    (by decide) (by decide)⟩

/-- C6: a body on which decoding fails is still answered with 200 and the body
`EVENT_RECEIVED`; nothing is routed, and the error is logged together with the
body. -/
theorem messageHandler_decode_error_acknowledged
    (unmarshal : Bytes → Except String WebhookPayload) (body : Bytes) (err : String)
    (h : unmarshal body = Except.error err) :
    (messageHandler unmarshal (Except.ok body)).w.status = some StatusOK
    ∧ (messageHandler unmarshal (Except.ok body)).w.writes = ["EVENT_RECEIVED"]
    ∧ (messageHandler unmarshal (Except.ok body)).w.body = "EVENT_RECEIVED"
    ∧ (messageHandler unmarshal (Except.ok body)).routed = []
    ∧ (messageHandler unmarshal (Except.ok body)).log = [LogLine.parseError err body] := by
  rw [messageHandler_of_decode_error unmarshal body err h]
  simp [eventReceived, ResponseWriter.body, String.join]

theorem messageHandler_decode_error_acknowledged_witness :
    sampleUnmarshal truncatedBody = Except.error "proto: syntax error"
    ∧ ((messageHandler sampleUnmarshal (Except.ok truncatedBody)).w.status = some StatusOK
      ∧ (messageHandler sampleUnmarshal (Except.ok truncatedBody)).w.writes = ["EVENT_RECEIVED"]
      ∧ (messageHandler sampleUnmarshal (Except.ok truncatedBody)).w.body = "EVENT_RECEIVED"
      ∧ (messageHandler sampleUnmarshal (Except.ok truncatedBody)).routed = []
      ∧ (messageHandler sampleUnmarshal (Except.ok truncatedBody)).log
          = [LogLine.parseError "proto: syntax error" truncatedBody]) :=
  ⟨by decide, messageHandler_decode_error_acknowledged sampleUnmarshal truncatedBody
    "proto: syntax error" (by decide)⟩

/-- A body that cannot be read is answered with 500 by `http.Error`; the
decoder is not called. -/
theorem messageHandler_of_read_error (unmarshal : Bytes → Except String WebhookPayload)
    (err : String) :
    messageHandler unmarshal (Except.error err)
      = { w := { status := some 500, writes := ["Error reading request body\n"] }
          log := [LogLine.readError err], routed := [] } := by
  rfl

/-! ## messageHandler: the variant dispatch -/

theorem routeValue_of_messages (v : Value) (acc : List Routed) (hm : 0 < Slice.len v.Messages) :
    routeValue (some v) acc = acc ++ [Routed.messages v.Messages] := by
  have hne : v.Messages ≠ none := Slice.ne_none_of_len_pos v.Messages hm
  simp [routeValue, Value.GetMessages, hne]

theorem routeValue_of_statuses (v : Value) (acc : List Routed) (hm : v.Messages = none)
    (hs : 0 < Slice.len v.Statuses) :
    routeValue (some v) acc = acc ++ [Routed.statuses v.Statuses] := by
  have hne : v.Statuses ≠ none := Slice.ne_none_of_len_pos v.Statuses hs
  simp [routeValue, Value.GetMessages, Value.GetStatuses, hm, hne]

/-- C8, as stated, fails: for the value that carries one message and one
status the routing enters the messages branch only; the statuses branch is not
reached, here and in the run of the handler on the payload holding that value. -/
theorem routeValue_both_not_both :
    (0 < Slice.len bothValue.Messages ∧ 0 < Slice.len bothValue.Statuses)
    ∧ ¬ (Routed.messages bothValue.Messages ∈ routeValue (some bothValue) []
        ∧ Routed.statuses bothValue.Statuses ∈ routeValue (some bothValue) [])
    ∧ sampleUnmarshal bothBody = Except.ok bothPayload
    ∧ (messageHandler sampleUnmarshal (Except.ok bothBody)).routed
        = [Routed.messages bothValue.Messages] := by
  decide

/-- C8, amended: for a value in which both messages and statuses are non-empty
the routing enters the messages branch and only that one (messages take
priority, the statuses branch is not reached); the handler run on a payload
whose only change holds such a value routes exactly that and answers 200 with
`EVENT_RECEIVED`. -/
theorem routeValue_both_nonempty (v : Value) (acc : List Routed)
    (hm : 0 < Slice.len v.Messages) (_hs : 0 < Slice.len v.Statuses) :
    routeValue (some v) acc = acc ++ [Routed.messages v.Messages]
    ∧ (∀ ss, Routed.statuses ss ∉ routeValue (some v) [])
    ∧ (∀ (unmarshal : Bytes → Except String WebhookPayload) (body : Bytes)
        (payload : WebhookPayload) (c : Ptr Change),
        unmarshal body = Except.ok payload →
        payload.Object = "whatsapp_business_account" →
        payload.changes = [c] → Change.GetValue c = some v →
        messageHandler unmarshal (Except.ok body)
          = { w := eventReceived, log := [], routed := [Routed.messages v.Messages] }) := by
  refine ⟨routeValue_of_messages v acc hm, ?_, ?_⟩
  · intro ss
    rw [routeValue_of_messages v [] hm]
    simp
  · intro unmarshal body payload c hdec hobj hch hval
    rw [messageHandler_of_business_account unmarshal body payload hdec hobj, hch]
    simp [routeChange, hval, routeValue_of_messages v [] hm]

theorem routeValue_both_nonempty_witness :
    (0 < Slice.len bothValue.Messages ∧ 0 < Slice.len bothValue.Statuses)
    ∧ (routeValue (some bothValue) [] = [] ++ [Routed.messages bothValue.Messages]
      ∧ (∀ ss, Routed.statuses ss ∉ routeValue (some bothValue) [])
      ∧ (∀ (unmarshal : Bytes → Except String WebhookPayload) (body : Bytes)
          (payload : WebhookPayload) (c : Ptr Change),
          unmarshal body = Except.ok payload →
          payload.Object = "whatsapp_business_account" →
          payload.changes = [c] → Change.GetValue c = some bothValue →
          messageHandler unmarshal (Except.ok body)
            = { w := eventReceived, log := []
                routed := [Routed.messages bothValue.Messages] })) :=
  ⟨by decide, routeValue_both_nonempty bothValue [] (by decide) (by decide)⟩

/-- C9: a decoded value with non-empty messages and empty statuses enters the
messages branch only and exposes exactly its messages; a decoded value with
empty messages and non-empty statuses enters the statuses branch only and
exposes exactly its statuses; the handler run on the payload with one entry,
one change and one text message routes that one message. -/
theorem routeValue_single_variant (v1 v2 : Value) (acc : List Routed)
    (h1m : 0 < Slice.len v1.Messages) (_h1s : Slice.len v1.Statuses = 0)
    (h2m : Slice.len v2.Messages = 0) (h2d : Slice.Decoded v2.Messages)
    (h2s : 0 < Slice.len v2.Statuses) :
    routeValue (some v1) acc = acc ++ [Routed.messages v1.Messages]
    ∧ routeValue (some v2) acc = acc ++ [Routed.statuses v2.Statuses]
    ∧ (messageHandler sampleUnmarshal (Except.ok textBody)).routed
        = [Routed.messages (some [some textMessage])] := by
  refine ⟨routeValue_of_messages v1 acc h1m, ?_, by decide⟩
  exact routeValue_of_statuses v2 acc (Slice.eq_none_of_len_zero v2.Messages h2d h2m) h2s

theorem routeValue_single_variant_witness :
    (0 < Slice.len textValue.Messages ∧ Slice.len textValue.Statuses = 0
      ∧ Slice.len statusValue.Messages = 0 ∧ Slice.Decoded statusValue.Messages
      ∧ 0 < Slice.len statusValue.Statuses)
    ∧ (routeValue (some textValue) [] = [] ++ [Routed.messages textValue.Messages]
      ∧ routeValue (some statusValue) [] = [] ++ [Routed.statuses statusValue.Statuses]
      ∧ (messageHandler sampleUnmarshal (Except.ok textBody)).routed
          = [Routed.messages (some [some textMessage])]) :=
  ⟨⟨by decide, by decide, by decide, by simp [Slice.Decoded, statusValue], by decide⟩,
    routeValue_single_variant textValue statusValue [] (by decide) (by decide) (by decide)
      (by simp [Slice.Decoded, statusValue]) (by decide)⟩

/-- The branch condition compares with nil, not with length zero: on a value
built by hand whose messages slice is allocated but empty, the messages branch
is entered although statuses is the only non-empty variant. Decoding does not
produce such a value. -/
theorem routeValue_allocated_empty_messages :
    routeValue (some { Messages := some [], Statuses := some [some deliveredStatus] }) []
      = [Routed.messages (some [])] := by
  decide

/-- C10: on a decoded payload whose object is `whatsapp_business_account` the
handler answers 200 with `EVENT_RECEIVED`; what it routes is, entry after entry
and change after change in sequence order, the branch of each change; a change
whose value is missing, or whose decoded value has neither messages nor
statuses, contributes nothing, and the other changes contribute one branch each
in their original order. -/
theorem messageHandler_noop_changes (unmarshal : Bytes → Except String WebhookPayload)
    (body : Bytes) (payload : WebhookPayload)
    (h : unmarshal body = Except.ok payload)
    (hobj : payload.Object = "whatsapp_business_account") :
    (messageHandler unmarshal (Except.ok body)).w.status = some StatusOK
    ∧ (messageHandler unmarshal (Except.ok body)).w.body = "EVENT_RECEIVED"
    ∧ (messageHandler unmarshal (Except.ok body)).routed = payload.changes.flatMap routeChange
    ∧ (messageHandler unmarshal (Except.ok body)).routed
        = (payload.changes.filter Change.actionable).flatMap routeChange
    ∧ (∀ c : Ptr Change, Change.GetValue c = none →
        routeChange c = [] ∧ Change.actionable c = false)
    ∧ (∀ (c : Ptr Change) (v : Value), Change.GetValue c = some v →
        Slice.Decoded v.Messages → Slice.Decoded v.Statuses →
        Slice.len v.Messages = 0 → Slice.len v.Statuses = 0 →
        routeChange c = [] ∧ Change.actionable c = false)
    ∧ (∀ c : Ptr Change, Change.actionable c = true → (routeChange c).length = 1) := by
  rw [messageHandler_of_business_account unmarshal body payload h hobj]
  refine ⟨rfl, by simp [eventReceived, ResponseWriter.body, String.join], rfl,
    flatMap_routeChange_filter _, ?_, ?_, ?_⟩
  · intro c hc
    have ha : Change.actionable c = false := by
      simp [Change.actionable, hc, Value.GetMessages, Value.GetStatuses]
    exact ⟨routeChange_of_not_actionable c ha, ha⟩
  · intro c v hc hdm hds hm hs
    have hm0 := Slice.eq_none_of_len_zero v.Messages hdm hm
    have hs0 := Slice.eq_none_of_len_zero v.Statuses hds hs
    have ha : Change.actionable c = false := by
      simp [Change.actionable, hc, Value.GetMessages, Value.GetStatuses, hm0, hs0]
    exact ⟨routeChange_of_not_actionable c ha, ha⟩
  · intro c hc
    simp only [Change.actionable, Bool.or_eq_true, decide_eq_true_eq] at hc
    unfold routeChange routeValue
    split
    · simp
    · rename_i hmn
      rcases hc with hc | hc
      · exact absurd hc hmn
      · simp [hc]

theorem messageHandler_noop_changes_witness :
    (sampleUnmarshal mixedBody = Except.ok mixedPayload
      ∧ mixedPayload.Object = "whatsapp_business_account"
      ∧ mixedPayload.changes.map Change.actionable = [false, true, false, true]
      ∧ (messageHandler sampleUnmarshal (Except.ok mixedBody)).routed
          = [Routed.messages textValue.Messages, Routed.statuses statusValue.Statuses])
    ∧ ((messageHandler sampleUnmarshal (Except.ok mixedBody)).w.status = some StatusOK
      ∧ (messageHandler sampleUnmarshal (Except.ok mixedBody)).w.body = "EVENT_RECEIVED"
      ∧ (messageHandler sampleUnmarshal (Except.ok mixedBody)).routed
          = mixedPayload.changes.flatMap routeChange
      ∧ (messageHandler sampleUnmarshal (Except.ok mixedBody)).routed
          = (mixedPayload.changes.filter Change.actionable).flatMap routeChange
      ∧ (∀ c : Ptr Change, Change.GetValue c = none →
          routeChange c = [] ∧ Change.actionable c = false)
      ∧ (∀ (c : Ptr Change) (v : Value), Change.GetValue c = some v →
          Slice.Decoded v.Messages → Slice.Decoded v.Statuses →
          Slice.len v.Messages = 0 → Slice.len v.Statuses = 0 →
          routeChange c = [] ∧ Change.actionable c = false)
      ∧ (∀ c : Ptr Change, Change.actionable c = true → (routeChange c).length = 1)) :=
  ⟨by decide, messageHandler_noop_changes sampleUnmarshal mixedBody mixedPayload
    (by decide) (by decide)⟩

/-! ## The decoder and unknown fields -/

theorem Slice.appendDecoded_decoded {α : Type} (s : Slice (Ptr α)) (xs : List α)
    (h : Slice.Decoded s) : Slice.Decoded (Slice.appendDecoded s xs) := by
  cases xs with
  | nil => exact h
  | cons x xs => simp [Slice.appendDecoded, Slice.Decoded]

theorem unmarshalMessage_object (opts : UnmarshalOptions) (members : List (String × JSON))
    {M : Type} (codec : Codec M) (empty : M) :
    unmarshalMessage opts (JSON.object members) codec empty
      = unmarshalMembers opts members codec [] empty := by
  rfl

theorem unmarshalMembers_cons (opts : UnmarshalOptions) (name : String) (val : JSON)
    (rest : List (String × JSON)) {M : Type} (codec : Codec M) (seen : List Nat) (m : M) :
    unmarshalMembers opts ((name, val) :: rest) codec seen m
      = match memberStep opts codec name val seen m
          (fun _ child empty => unmarshalMessage opts val child empty)
          (fun _ child empty => unmarshalArray opts val child empty) with
        | Except.error err => Except.error err
        | Except.ok next => unmarshalMembers opts rest codec next.1 next.2 := by
  cases val <;> rfl

theorem unmarshalItems_cons (opts : UnmarshalOptions) (item : JSON) (rest : List JSON)
    {C : Type} (child : Codec C) (empty : C) :
    unmarshalItems opts (item :: rest) child empty
      = match unmarshalMessage opts item child empty with
        | Except.error err => Except.error err
        | Except.ok c =>
          match unmarshalItems opts rest child empty with
          | Except.error err => Except.error err
          | Except.ok cs => Except.ok (c :: cs) := by
  rfl

theorem unmarshalMembers_append_error {M : Type} (opts : UnmarshalOptions) (codec : Codec M)
    (A B : List (String × JSON)) (e : DecodeError)
    (h : ∀ seen m r, unmarshalMembers opts A codec seen m = Except.ok r →
      unmarshalMembers opts B codec seen m = Except.error e)
    (ms1 : List (String × JSON)) :
    ∀ seen m r, unmarshalMembers opts (ms1 ++ A) codec seen m = Except.ok r →
      unmarshalMembers opts (ms1 ++ B) codec seen m = Except.error e := by
  induction ms1 with
  | nil => exact h
  | cons p ms1 ih =>
    obtain ⟨n1, v1⟩ := p
    intro seen m r hok
    rw [List.cons_append, unmarshalMembers_cons] at hok ⊢
    split at hok
    · cases hok
    · exact ih _ _ _ hok

theorem unmarshalMembers_append_congr {M : Type} (opts : UnmarshalOptions) (codec : Codec M)
    (A B : List (String × JSON))
    (h : ∀ seen m, unmarshalMembers opts A codec seen m = unmarshalMembers opts B codec seen m)
    (ms1 : List (String × JSON)) :
    ∀ seen m, unmarshalMembers opts (ms1 ++ A) codec seen m
      = unmarshalMembers opts (ms1 ++ B) codec seen m := by
  induction ms1 with
  | nil => exact h
  | cons p ms1 ih =>
    obtain ⟨n1, v1⟩ := p
    intro seen m
    rw [List.cons_append, List.cons_append, unmarshalMembers_cons, unmarshalMembers_cons]
    split
    · rfl
    · exact ih _ _

theorem unmarshalItems_append_error {C : Type} (opts : UnmarshalOptions) (child : Codec C)
    (empty : C) (x x2 : JSON) (xs2 : List JSON) (e : DecodeError)
    (h : ∀ r, unmarshalMessage opts x child empty = Except.ok r →
      unmarshalMessage opts x2 child empty = Except.error e)
    (xs1 : List JSON) :
    ∀ r, unmarshalItems opts (xs1 ++ x :: xs2) child empty = Except.ok r →
      unmarshalItems opts (xs1 ++ x2 :: xs2) child empty = Except.error e := by
  induction xs1 with
  | nil =>
    intro r hok
    rw [List.nil_append, unmarshalItems_cons] at hok ⊢
    split at hok
    · cases hok
    · rename_i c hc
      rw [h c hc]
  | cons y xs1 ih =>
    intro r hok
    rw [List.cons_append, unmarshalItems_cons] at hok ⊢
    split at hok
    · cases hok
    · split at hok
      · cases hok
      · rename_i cs hcs
        rw [ih cs hcs]

theorem unmarshalItems_append_congr {C : Type} (opts : UnmarshalOptions) (child : Codec C)
    (empty : C) (x x2 : JSON) (xs2 : List JSON)
    (h : unmarshalMessage opts x2 child empty = unmarshalMessage opts x child empty)
    (xs1 : List JSON) :
    unmarshalItems opts (xs1 ++ x2 :: xs2) child empty
      = unmarshalItems opts (xs1 ++ x :: xs2) child empty := by
  induction xs1 with
  | nil => rw [List.nil_append, List.nil_append, unmarshalItems_cons, unmarshalItems_cons, h]
  | cons y xs1 ih =>
    rw [List.cons_append, List.cons_append, unmarshalItems_cons, unmarshalItems_cons, ih]

theorem Extended.isObject {name : String} {M : Type} {codec : Codec M} {j j2 : JSON}
    (h : Extended name codec j j2) :
    (∃ ms, j = JSON.object ms) ∧ (∃ ms, j2 = JSON.object ms) := by
  cases h <;> exact ⟨⟨_, rfl⟩, ⟨_, rfl⟩⟩

theorem unmarshalMembers_head_unknown_default {M : Type} (codec : Codec M) (name : String)
    (val : JSON) (ms2 : List (String × JSON)) (h : codec.find name = none)
    (seen : List Nat) (m : M) :
    unmarshalMembers {} ((name, val) :: ms2) codec seen m
      = Except.error (DecodeError.unknownField name) := by
  rw [unmarshalMembers_cons]
  simp [memberStep, h]

theorem unmarshalMembers_head_unknown_discard {M : Type} (codec : Codec M) (name : String)
    (val : JSON) (ms2 : List (String × JSON)) (h : codec.find name = none)
    (seen : List Nat) (m : M) :
    unmarshalMembers { DiscardUnknown := true } ((name, val) :: ms2) codec seen m
      = unmarshalMembers { DiscardUnknown := true } ms2 codec seen m := by
  rw [unmarshalMembers_cons]
  simp [memberStep, h]

theorem unmarshalMembers_head_message_error {M C : Type} (opts : UnmarshalOptions)
    (codec : Codec M) (fname : String) (num : Nat) (child : Codec C) (empty : C)
    (set : C → M → M) (a b ms2 : List (String × JSON)) (e : DecodeError)
    (hfind : codec.find fname = some (FieldOf.message num child empty set))
    (h : ∀ r, unmarshalMessage opts (JSON.object a) child empty = Except.ok r →
      unmarshalMessage opts (JSON.object b) child empty = Except.error e)
    (seen : List Nat) (m r : M)
    (hok : unmarshalMembers opts ((fname, JSON.object a) :: ms2) codec seen m = Except.ok r) :
    unmarshalMembers opts ((fname, JSON.object b) :: ms2) codec seen m = Except.error e := by
  rw [unmarshalMembers_cons] at hok ⊢
  simp only [memberStep, hfind, FieldOf.number] at hok ⊢
  by_cases hs : num ∈ seen
  · simp [hs] at hok
  · simp only [hs, if_false] at hok ⊢
    cases hc : unmarshalMessage opts (JSON.object a) child empty with
    | error err => simp [hc] at hok
    | ok c => simp [h c hc]

theorem unmarshalMembers_head_message_congr {M C : Type} (opts : UnmarshalOptions)
    (codec : Codec M) (fname : String) (num : Nat) (child : Codec C) (empty : C)
    (set : C → M → M) (a b ms2 : List (String × JSON))
    (hfind : codec.find fname = some (FieldOf.message num child empty set))
    (h : unmarshalMessage opts (JSON.object b) child empty
      = unmarshalMessage opts (JSON.object a) child empty)
    (seen : List Nat) (m : M) :
    unmarshalMembers opts ((fname, JSON.object b) :: ms2) codec seen m
      = unmarshalMembers opts ((fname, JSON.object a) :: ms2) codec seen m := by
  rw [unmarshalMembers_cons, unmarshalMembers_cons]
  simp only [memberStep, hfind, FieldOf.number, h]

theorem unmarshalMembers_head_repeated_error {M C : Type} (opts : UnmarshalOptions)
    (codec : Codec M) (fname : String) (num : Nat) (child : Codec C) (empty : C)
    (app : List C → M → M) (xs ys : List JSON) (ms2 : List (String × JSON)) (e : DecodeError)
    (hfind : codec.find fname = some (FieldOf.repeated num child empty app))
    (h : ∀ r, unmarshalItems opts xs child empty = Except.ok r →
      unmarshalItems opts ys child empty = Except.error e)
    (seen : List Nat) (m r : M)
    (hok : unmarshalMembers opts ((fname, JSON.array xs) :: ms2) codec seen m = Except.ok r) :
    unmarshalMembers opts ((fname, JSON.array ys) :: ms2) codec seen m = Except.error e := by
  rw [unmarshalMembers_cons] at hok ⊢
  simp only [memberStep, hfind, FieldOf.number, unmarshalArray] at hok ⊢
  by_cases hs : num ∈ seen
  · simp [hs] at hok
  · simp only [hs, if_false] at hok ⊢
    cases hc : unmarshalItems opts xs child empty with
    | error err => simp [hc] at hok
    | ok c => simp [h c hc]

theorem unmarshalMembers_head_repeated_congr {M C : Type} (opts : UnmarshalOptions)
    (codec : Codec M) (fname : String) (num : Nat) (child : Codec C) (empty : C)
    (app : List C → M → M) (xs ys : List JSON) (ms2 : List (String × JSON))
    (hfind : codec.find fname = some (FieldOf.repeated num child empty app))
    (h : unmarshalItems opts ys child empty = unmarshalItems opts xs child empty)
    (seen : List Nat) (m : M) :
    unmarshalMembers opts ((fname, JSON.array ys) :: ms2) codec seen m
      = unmarshalMembers opts ((fname, JSON.array xs) :: ms2) codec seen m := by
  rw [unmarshalMembers_cons, unmarshalMembers_cons]
  simp only [memberStep, hfind, FieldOf.number, unmarshalArray, h]

/-- Under the zero options, a message value that decodes is rejected with an
unknown-field error once a member that names no field is added to its object
or to the object of any message nested in it. -/
theorem unmarshalMessage_extended_default {name : String} {M : Type} {codec : Codec M}
    {j j2 : JSON} (hext : Extended name codec j j2) :
    ∀ (empty r : M), unmarshalMessage {} j codec empty = Except.ok r →
      unmarshalMessage {} j2 codec empty = Except.error (DecodeError.unknownField name) := by
  induction hext with
  | here codec ms1 ms2 val hfind =>
    intro empty r hok
    rw [unmarshalMessage_object] at hok ⊢
    exact unmarshalMembers_append_error {} codec ms2 ((name, val) :: ms2) _
      (fun seen m _ _ => unmarshalMembers_head_unknown_default codec name val ms2 hfind seen m)
      ms1 [] empty r hok
  | inMessage codec fname num child cempty set ms1 ms2 v v2 hfind hsub ih =>
    intro empty r hok
    obtain ⟨⟨a, rfl⟩, ⟨b, rfl⟩⟩ := hsub.isObject
    rw [unmarshalMessage_object] at hok ⊢
    exact unmarshalMembers_append_error {} codec _ _ _
      (unmarshalMembers_head_message_error {} codec fname num child cempty set a b ms2 _ hfind
        (ih cempty))
      ms1 [] empty r hok
  | inRepeated codec fname num child cempty app ms1 ms2 xs1 xs2 x x2 hfind hsub ih =>
    intro empty r hok
    rw [unmarshalMessage_object] at hok ⊢
    exact unmarshalMembers_append_error {} codec _ _ _
      (unmarshalMembers_head_repeated_error {} codec fname num child cempty app _ _ ms2 _ hfind
        (unmarshalItems_append_error {} child cempty x x2 xs2 _ (ih cempty) xs1))
      ms1 [] empty r hok

/-- With `DiscardUnknown` set, a member that names no field, added to the
object of a message or of any message nested in it, does not change the result
of decoding. -/
theorem unmarshalMessage_extended_discard {name : String} {M : Type} {codec : Codec M}
    {j j2 : JSON} (hext : Extended name codec j j2) :
    ∀ (empty : M), unmarshalMessage { DiscardUnknown := true } j2 codec empty
      = unmarshalMessage { DiscardUnknown := true } j codec empty := by
  induction hext with
  | here codec ms1 ms2 val hfind =>
    intro empty
    rw [unmarshalMessage_object, unmarshalMessage_object]
    exact unmarshalMembers_append_congr _ codec _ _
      (unmarshalMembers_head_unknown_discard codec name val ms2 hfind) ms1 [] empty
  | inMessage codec fname num child cempty set ms1 ms2 v v2 hfind hsub ih =>
    intro empty
    obtain ⟨⟨a, rfl⟩, ⟨b, rfl⟩⟩ := hsub.isObject
    rw [unmarshalMessage_object, unmarshalMessage_object]
    exact unmarshalMembers_append_congr _ codec _ _
      (unmarshalMembers_head_message_congr _ codec fname num child cempty set a b ms2 hfind
        (ih cempty)) ms1 [] empty
  | inRepeated codec fname num child cempty app ms1 ms2 xs1 xs2 x x2 hfind hsub ih =>
    intro empty
    rw [unmarshalMessage_object, unmarshalMessage_object]
    exact unmarshalMembers_append_congr _ codec _ _
      (unmarshalMembers_head_repeated_congr _ codec fname num child cempty app _ _ ms2 hfind
        (unmarshalItems_append_congr _ child cempty x x2 xs2 (ih cempty) xs1)) ms1 [] empty

theorem protojsonUnmarshal_of_error (codec : Codec WebhookPayload)
    (describe : Bytes → DecodeError → String) (parse : Bytes → Option JSON) (body : Bytes)
    (e : DecodeError) (h : unmarshalWith {} codec parse body = Except.error e) :
    protojsonUnmarshal codec describe parse body = Except.error (describe body e) := by
  simp [protojsonUnmarshal, h]

theorem protojsonUnmarshal_of_ok (codec : Codec WebhookPayload)
    (describe : Bytes → DecodeError → String) (parse : Bytes → Option JSON) (body : Bytes)
    (payload : WebhookPayload) (h : unmarshalWith {} codec parse body = Except.ok payload) :
    protojsonUnmarshal codec describe parse body = Except.ok payload := by
  simp [protojsonUnmarshal, h]

theorem unmarshalWith_of_protojsonUnmarshal_ok (codec : Codec WebhookPayload)
    (describe : Bytes → DecodeError → String) (parse : Bytes → Option JSON) (body : Bytes)
    (payload : WebhookPayload)
    (h : protojsonUnmarshal codec describe parse body = Except.ok payload) :
    unmarshalWith {} codec parse body = Except.ok payload := by
  unfold protojsonUnmarshal at h
  split at h
  · cases h
  · rename_i p hp
    cases h
    exact hp

/-- The decoder on the sample bodies: it yields the payloads the decoder table
of the samples lists for them, and reports the truncated body as malformed. -/
theorem protojsonUnmarshal_samples (describe : Bytes → DecodeError → String) :
    protojsonUnmarshal webhookPayloadCodec describe sampleParse textBody
      = sampleUnmarshal textBody
    ∧ protojsonUnmarshal webhookPayloadCodec describe sampleParse mixedBody
      = sampleUnmarshal mixedBody
    ∧ protojsonUnmarshal webhookPayloadCodec describe sampleParse otherKindEmptyBody
      = sampleUnmarshal otherKindEmptyBody
    ∧ unmarshalWith {} webhookPayloadCodec sampleParse truncatedBody
      = Except.error DecodeError.malformed := by
  refine ⟨?_, ?_, ?_, by decide⟩
  · rw [protojsonUnmarshal_of_ok _ _ _ _ textPayload (by decide)]
    decide
  · rw [protojsonUnmarshal_of_ok _ _ _ _ mixedPayload (by decide)]
    decide
  · rw [protojsonUnmarshal_of_ok _ _ _ _ otherKindEmptyPayload (by decide)]
    decide

/-- The sample object with the extra member inside its message is the sample
object of `textBody` extended in a nested message. -/
theorem nestedExtendedJSON_extended :
    Extended "x_future_field" webhookPayloadCodec (JSON.object textMembers)
      nestedExtendedJSON :=
  Extended.inRepeated webhookPayloadCodec "entry" 2 entryCodec {} _
    [("object", JSON.string "whatsapp_business_account")] [] [] [] _ _ rfl
    (Extended.inRepeated entryCodec "changes" 2 changeCodec {} _
      [("id", JSON.string "1")] [] [] [] _ _ rfl
      (Extended.inMessage changeCodec "value" 2 valueCodec {} _
        [("field", JSON.string "messages")] [] _ _ rfl
        (Extended.inRepeated valueCodec "messages" 3 messageCodec {} _
          [("messaging_product", JSON.string "whatsapp")] [] [] [] _ _ rfl
          (Extended.here messageCodec
            [("id", JSON.string "wamid.1"), ("from", JSON.string "15550001111"),
              ("timestamp", JSON.string "1700000000"), ("type", JSON.string "text"),
              ("text", JSON.object [("body", JSON.string "hello")])]
            [] (JSON.bool true) rfl))))

/-- C7, as stated, fails: the body of the one-text-message payload decodes,
and the same body with one more top-level member, or with one more member
inside its message, that names no field is rejected by the decode call of
`messageHandler` with an unknown-field error instead of decoding to the same
payload; the handler then routes nothing. -/
theorem protojsonUnmarshal_rejects_extra_field :
    unmarshalWith {} webhookPayloadCodec sampleParse textBody = Except.ok textPayload
    ∧ unmarshalWith {} webhookPayloadCodec sampleParse extendedBody
        = Except.error (DecodeError.unknownField "x_future_field")
    ∧ unmarshalWith {} webhookPayloadCodec sampleParse nestedExtendedBody
        = Except.error (DecodeError.unknownField "x_future_field")
    ∧ (∀ describe : Bytes → DecodeError → String,
        protojsonUnmarshal webhookPayloadCodec describe sampleParse textBody
          = Except.ok textPayload
        ∧ ¬ (protojsonUnmarshal webhookPayloadCodec describe sampleParse extendedBody
          = Except.ok textPayload)
        ∧ ¬ (protojsonUnmarshal webhookPayloadCodec describe sampleParse nestedExtendedBody
          = Except.ok textPayload)
        ∧ (messageHandler (protojsonUnmarshal webhookPayloadCodec describe sampleParse)
            (Except.ok textBody)).routed = [Routed.messages (some [some textMessage])]
        ∧ (messageHandler (protojsonUnmarshal webhookPayloadCodec describe sampleParse)
            (Except.ok extendedBody)).routed = []
        ∧ (messageHandler (protojsonUnmarshal webhookPayloadCodec describe sampleParse)
            (Except.ok nestedExtendedBody)).routed = []) := by
  refine ⟨by decide, by decide, by decide, fun describe => ?_⟩
  have h1 := protojsonUnmarshal_of_ok webhookPayloadCodec describe sampleParse textBody
    textPayload (by decide)
  have h2 := protojsonUnmarshal_of_error webhookPayloadCodec describe sampleParse extendedBody
    (DecodeError.unknownField "x_future_field") (by decide)
  have h3 := protojsonUnmarshal_of_error webhookPayloadCodec describe sampleParse
    nestedExtendedBody (DecodeError.unknownField "x_future_field") (by decide)
  refine ⟨h1, ?_, ?_, ?_, ?_, ?_⟩
  · rw [h2]
    exact fun h => by cases h
  · rw [h3]
    exact fun h => by cases h
  · rw [messageHandler_of_business_account _ textBody textPayload h1 (by decide)]
    decide
  · rw [messageHandler_of_decode_error _ extendedBody _ h2]
  · rw [messageHandler_of_decode_error _ nestedExtendedBody _ h3]

/-- C7, amended: decoding does fail because of an unrecognized extra field. For
every JSON object that the decode call of `messageHandler` (`protojson.Unmarshal`
with default options) decodes into a `WebhookPayload`, whatever the fields of
the generated message types are, the object with one more member that names no
field, at the top level or inside any nested message and at any position, is
rejected with an unknown-field error; the handler logs the error text with the
body, answers 200 with `EVENT_RECEIVED` and routes nothing. With the option
`DiscardUnknown` set the decoder ignores that member: both objects decode
alike. -/
theorem protojsonUnmarshal_unknown_field (codec : Codec WebhookPayload)
    (describe : Bytes → DecodeError → String) (parse : Bytes → Option JSON)
    (body body2 : Bytes) (j j2 : JSON) (name : String) (payload : WebhookPayload)
    (hbody : parse body = some j) (hbody2 : parse body2 = some j2)
    (hext : Extended name codec j j2)
    (hok : protojsonUnmarshal codec describe parse body = Except.ok payload) :
    unmarshalWith {} codec parse body2 = Except.error (DecodeError.unknownField name)
    ∧ protojsonUnmarshal codec describe parse body2
        = Except.error (describe body2 (DecodeError.unknownField name))
    ∧ messageHandler (protojsonUnmarshal codec describe parse) (Except.ok body2)
        = { w := eventReceived
            log := [LogLine.parseError (describe body2 (DecodeError.unknownField name)) body2]
            routed := [] }
    ∧ unmarshalWith { DiscardUnknown := true } codec parse body2
        = unmarshalWith { DiscardUnknown := true } codec parse body := by
  have hok1 := unmarshalWith_of_protojsonUnmarshal_ok codec describe parse body payload hok
  have hrej : unmarshalWith {} codec parse body2
      = Except.error (DecodeError.unknownField name) := by
    simp only [unmarshalWith, hbody, hbody2] at hok1 ⊢
    exact unmarshalMessage_extended_default hext {} payload hok1
  have hrej2 := protojsonUnmarshal_of_error codec describe parse body2 _ hrej
  refine ⟨hrej, hrej2, messageHandler_of_decode_error _ body2 _ hrej2, ?_⟩
  simp only [unmarshalWith, hbody, hbody2]
  exact unmarshalMessage_extended_discard hext {}

theorem protojsonUnmarshal_unknown_field_witness :
    (sampleParse textBody = some (JSON.object textMembers)
      ∧ sampleParse nestedExtendedBody = some nestedExtendedJSON
      ∧ Extended "x_future_field" webhookPayloadCodec (JSON.object textMembers)
          nestedExtendedJSON
      ∧ protojsonUnmarshal webhookPayloadCodec sampleDescribe sampleParse textBody
          = Except.ok textPayload)
    ∧ (unmarshalWith {} webhookPayloadCodec sampleParse nestedExtendedBody
          = Except.error (DecodeError.unknownField "x_future_field")
      ∧ protojsonUnmarshal webhookPayloadCodec sampleDescribe sampleParse nestedExtendedBody
          = Except.error
              (sampleDescribe nestedExtendedBody (DecodeError.unknownField "x_future_field"))
      ∧ messageHandler (protojsonUnmarshal webhookPayloadCodec sampleDescribe sampleParse)
          (Except.ok nestedExtendedBody)
          = { w := eventReceived
              log := [LogLine.parseError
                (sampleDescribe nestedExtendedBody (DecodeError.unknownField "x_future_field"))
                nestedExtendedBody]
              routed := [] }
      ∧ unmarshalWith { DiscardUnknown := true } webhookPayloadCodec sampleParse
          nestedExtendedBody
          = unmarshalWith { DiscardUnknown := true } webhookPayloadCodec sampleParse textBody) :=
  ⟨⟨rfl, rfl, nestedExtendedJSON_extended, by decide⟩,
    protojsonUnmarshal_unknown_field webhookPayloadCodec sampleDescribe sampleParse textBody
      nestedExtendedBody (JSON.object textMembers) nestedExtendedJSON "x_future_field"
      textPayload rfl rfl nestedExtendedJSON_extended (by decide)⟩

end Watogo
